import Mathlib

/-!
Verification of the schema-initializer of the timeloop repository
(src/src-tauri/src/lib.rs, function `run`).

The only logic in the source is declarative: a single version-1 SQL
migration (three `CREATE TABLE IF NOT EXISTS` statements and two
`CREATE INDEX IF NOT EXISTS` statements) registered against the store
`sqlite:timeloop.db`, plus the final `.run(...).expect(...)` call.

The development embeds:
* the SQL DDL batch as a statement list (`migrationStmts`), statement by
  statement from the string literal at lib.rs lines 9-37;
* SQLite-style schema application (`applyStmt` / `applyBatch`) including
  the `IF NOT EXISTS` guards and the `PRAGMA foreign_keys` switch, so that
  idempotence and frame properties of the batch can be stated;
* row-level store semantics for the migrated schema (`DB`, the insert and
  delete operations), in which referential-integrity behaviour is driven
  by the foreign-key declarations extracted from the embedded table
  definitions and by the engine's foreign-key-enforcement flag;
* the registration record of `run` (`sqlPlugin`) and the outcome of the
  final `expect` call (`finishRun`).
-/

/-- Column types appearing in the migration DDL (`INTEGER`, `TEXT`). -/
inductive ColumnType
  | integer
  | text
deriving DecidableEq

/-- Default values appearing in the migration DDL: a literal (for example
`'#6366f1'`) or `CURRENT_TIMESTAMP`. -/
inductive DefaultVal
  | lit (s : String)
  | currentTimestamp
deriving DecidableEq

/-- Column declaration as written in the DDL.  A flag or clause absent from
the source column is `false` / `none` here (none of the source columns
carries `UNIQUE` or `CHECK`). -/
structure Column where
  name : String
  type : ColumnType
  notNull : Bool := false
  primaryKey : Bool := false
  autoincrement : Bool := false
  unique : Bool := false
  defaultValue : Option DefaultVal := none
  check : Option String := none
deriving DecidableEq

/-- Referential action of an `ON DELETE` clause. -/
inductive OnDeleteAction
  | cascade
  | setNull
  | restrict
  | noAction
deriving DecidableEq

/-- Table-level `FOREIGN KEY (column) REFERENCES refTable(refColumn)`;
`onDelete = none` means the declaration carries no `ON DELETE` clause. -/
structure ForeignKey where
  column : String
  refTable : String
  refColumn : String
  onDelete : Option OnDeleteAction := none
deriving DecidableEq

/-- Body of a `CREATE TABLE` statement. -/
structure TableDef where
  name : String
  columns : List Column
  foreignKeys : List ForeignKey := []
deriving DecidableEq

/-- Body of a `CREATE INDEX` statement (all source indexes are
single-column). -/
structure IndexDef where
  name : String
  table : String
  column : String
deriving DecidableEq

/-- SQL statements relevant to the migration batch.  The `pragma` form
does not occur in the source batch; it is included so that the absence of
any foreign-key-enforcement statement in the batch is expressible. -/
inductive Stmt
  | createTable (ifNotExists : Bool) (td : TableDef)
  | createIndex (ifNotExists : Bool) (ix : IndexDef)
  | pragma (nm : String) (value : String)
deriving DecidableEq

/-- Embeds `CREATE TABLE IF NOT EXISTS categories (...)`,
lib.rs lines 10-15. -/
def categoriesTable : TableDef :=
  { name := "categories"
  , columns :=
      [ { name := "id", type := ColumnType.integer, primaryKey := true, autoincrement := true }
      , { name := "name", type := ColumnType.text, notNull := true }
      , { name := "color", type := ColumnType.text, defaultValue := some (DefaultVal.lit "#6366f1") }
      , { name := "created_at", type := ColumnType.text, defaultValue := some DefaultVal.currentTimestamp } ]
  }

/-- Embeds `CREATE TABLE IF NOT EXISTS entries (...)`,
lib.rs lines 17-23.  The foreign key on `category_id` has no `ON DELETE`
clause. -/
def entriesTable : TableDef :=
  { name := "entries"
  , columns :=
      [ { name := "id", type := ColumnType.integer, primaryKey := true, autoincrement := true }
      , { name := "title", type := ColumnType.text, notNull := true }
      , { name := "category_id", type := ColumnType.integer }
      , { name := "created_at", type := ColumnType.text, defaultValue := some DefaultVal.currentTimestamp } ]
  , foreignKeys :=
      [ { column := "category_id", refTable := "categories", refColumn := "id" } ]
  }

/-- Embeds `CREATE TABLE IF NOT EXISTS time_entries (...)`,
lib.rs lines 25-33.  The foreign key on `entry_id` carries
`ON DELETE CASCADE`. -/
def timeEntriesTable : TableDef :=
  { name := "time_entries"
  , columns :=
      [ { name := "id", type := ColumnType.integer, primaryKey := true, autoincrement := true }
      , { name := "entry_id", type := ColumnType.integer, notNull := true }
      , { name := "duration", type := ColumnType.integer, notNull := true }
      , { name := "date", type := ColumnType.text, notNull := true }
      , { name := "note", type := ColumnType.text }
      , { name := "created_at", type := ColumnType.text, defaultValue := some DefaultVal.currentTimestamp } ]
  , foreignKeys :=
      [ { column := "entry_id", refTable := "entries", refColumn := "id"
        , onDelete := some OnDeleteAction.cascade } ]
  }

/-- Embeds `CREATE INDEX IF NOT EXISTS idx_time_entries_date ON
time_entries(date)`, lib.rs line 35. -/
def idxTimeEntriesDate : IndexDef :=
  { name := "idx_time_entries_date", table := "time_entries", column := "date" }

/-- Embeds `CREATE INDEX IF NOT EXISTS idx_time_entries_entry_id ON
time_entries(entry_id)`, lib.rs line 36. -/
def idxTimeEntriesEntryId : IndexDef :=
  { name := "idx_time_entries_entry_id", table := "time_entries", column := "entry_id" }

/-- The migration's SQL statement batch, in source order
(lib.rs lines 9-37).  Every statement is guarded by `IF NOT EXISTS`. -/
def migrationStmts : List Stmt :=
  [ Stmt.createTable true categoriesTable
  , Stmt.createTable true entriesTable
  , Stmt.createTable true timeEntriesTable
  , Stmt.createIndex true idxTimeEntriesDate
  , Stmt.createIndex true idxTimeEntriesEntryId ]

/-- Mirrors `tauri_plugin_sql::MigrationKind` (`Up` or `Down`). -/
inductive MigrationKind
  | up
  | down
deriving DecidableEq

/-- Mirrors the `tauri_plugin_sql::Migration` record built at
lib.rs lines 6-39, with the SQL string replaced by its statement list. -/
structure Migration where
  version : Nat
  description : String
  sql : List Stmt
  kind : MigrationKind
deriving DecidableEq

/-- Embeds the `migrations` vector of `run`, lib.rs lines 5-40. -/
def migrations : List Migration :=
  [ { version := 1
    , description := "create initial tables"
    , sql := migrationStmts
    , kind := MigrationKind.up } ]

/-- Registration data handed to the SQL plugin builder. -/
structure SqlPluginConfig where
  dbUrl : String
  migrations : List Migration
deriving DecidableEq

/-- Embeds `.add_migrations("sqlite:timeloop.db", migrations)`,
lib.rs line 46. -/
def sqlPlugin : SqlPluginConfig :=
  { dbUrl := "sqlite:timeloop.db", migrations := migrations }

/-! ### Spec-side schema, for the refinement claim C1

The following definitions are written from the specification's words
(spec.md, section 6 "External interfaces" and section 3 "Data model"),
independently of the source, to be compared with the tables embedded
above. -/

/-- Written from the spec: `categories(id PK autoincrement, name NOT NULL,
color DEFAULT '#6366f1', created_at DEFAULT now)`, the text columns being
text and `created_at` a timestamp stored as text defaulting to the current
timestamp. -/
def specCategoriesTable : TableDef :=
  { name := "categories"
  , columns :=
      [ { name := "id", type := ColumnType.integer, primaryKey := true, autoincrement := true }
      , { name := "name", type := ColumnType.text, notNull := true }
      , { name := "color", type := ColumnType.text, defaultValue := some (DefaultVal.lit "#6366f1") }
      , { name := "created_at", type := ColumnType.text, defaultValue := some DefaultVal.currentTimestamp } ]
  }

/-- Written from the spec: `entries(id PK autoincrement, title NOT NULL,
category_id FK->categories.id, created_at DEFAULT now)`, with
`category_id` nullable and its foreign key carrying no `ON DELETE`
clause. -/
def specEntriesTable : TableDef :=
  { name := "entries"
  , columns :=
      [ { name := "id", type := ColumnType.integer, primaryKey := true, autoincrement := true }
      , { name := "title", type := ColumnType.text, notNull := true }
      , { name := "category_id", type := ColumnType.integer }
      , { name := "created_at", type := ColumnType.text, defaultValue := some DefaultVal.currentTimestamp } ]
  , foreignKeys :=
      [ { column := "category_id", refTable := "categories", refColumn := "id" } ]
  }

/-- Written from the spec: `time_entries(id PK autoincrement, entry_id
FK->entries.id ON DELETE CASCADE NOT NULL, duration INTEGER NOT NULL,
date TEXT NOT NULL, note TEXT, created_at DEFAULT now)`. -/
def specTimeEntriesTable : TableDef :=
  { name := "time_entries"
  , columns :=
      [ { name := "id", type := ColumnType.integer, primaryKey := true, autoincrement := true }
      , { name := "entry_id", type := ColumnType.integer, notNull := true }
      , { name := "duration", type := ColumnType.integer, notNull := true }
      , { name := "date", type := ColumnType.text, notNull := true }
      , { name := "note", type := ColumnType.text }
      , { name := "created_at", type := ColumnType.text, defaultValue := some DefaultVal.currentTimestamp } ]
  , foreignKeys :=
      [ { column := "entry_id", refTable := "entries", refColumn := "id"
        , onDelete := some OnDeleteAction.cascade } ]
  }

/-- The tables defined by a statement batch, in order. -/
def tablesOf (l : List Stmt) : List TableDef :=
  l.filterMap fun st =>
    match st with
    | Stmt.createTable _ td => some td
    | _ => none

/-- The `(table, column)` targets of the indexes defined by a statement
batch, in order. -/
def indexTargetsOf (l : List Stmt) : List (String × String) :=
  l.filterMap fun st =>
    match st with
    | Stmt.createIndex _ ix => some (ix.table, ix.column)
    | _ => none

/-! ### Outcome of the final `run(...).expect(...)` call -/

/-- Observable outcome of process startup. -/
inductive RunOutcome
  | running
  | panicked (msg : String)
deriving DecidableEq

/-- Embeds `.run(tauri::generate_context!()).expect("error while running
tauri application")`, lib.rs lines 49-50: on an error from the framework's
run call, `expect` panics with the given message followed by the error's
debug text; on success the application runs. -/
def finishRun : Except String Unit → RunOutcome
  | Except.ok _ => RunOutcome.running
  | Except.error e => RunOutcome.panicked ("error while running tauri application: " ++ e)

/-! ### Schema application (SQLite semantics of the DDL batch)

A store holds the schema objects created so far and the engine's
foreign-key-enforcement switch (SQLite: off unless set by
`PRAGMA foreign_keys`).  `applyStmt` executes one statement: an unguarded
`CREATE` on an existing name fails, a guarded one is a no-op, a
`CREATE INDEX` requires its table to exist, and `PRAGMA foreign_keys`
flips the enforcement switch. -/

structure Store where
  tables : List TableDef
  indexes : List IndexDef
  fkEnforcement : Bool
deriving DecidableEq

def hasTable (s : Store) (n : String) : Bool :=
  s.tables.any fun t => t.name == n

def hasIndex (s : Store) (n : String) : Bool :=
  s.indexes.any fun i => i.name == n

def applyStmt (s : Store) : Stmt → Option Store
  | Stmt.createTable g td =>
      if hasTable s td.name then
        if g then some s else none
      else
        some { s with tables := s.tables ++ [td] }
  | Stmt.createIndex g ix =>
      if hasIndex s ix.name then
        if g then some s else none
      else if hasTable s ix.table then
        some { s with indexes := s.indexes ++ [ix] }
      else
        none
  | Stmt.pragma nm v =>
      if nm == "foreign_keys" then
        some { s with fkEnforcement := v == "ON" || v == "on" || v == "1" || v == "true" }
      else
        some s

def applyBatch : Store → List Stmt → Option Store
  | s, [] => some s
  | s, st :: rest =>
      match applyStmt s st with
      | some s' => applyBatch s' rest
      | none => none

/-- A fresh SQLite store: no schema objects, foreign-key enforcement off
(the SQLite default). -/
def emptyStore : Store :=
  { tables := [], indexes := [], fkEnforcement := false }

/-- The store produced by the version-1 migration batch on a fresh
store. -/
def migratedStore : Store :=
  { tables := [categoriesTable, entriesTable, timeEntriesTable]
  , indexes := [idxTimeEntriesDate, idxTimeEntriesEntryId]
  , fkEnforcement := false }

/-- A statement is existence-guarded DDL: a `CREATE TABLE IF NOT EXISTS`
or `CREATE INDEX IF NOT EXISTS`. -/
def isGuardedDDL : Stmt → Bool
  | Stmt.createTable g _ => g
  | Stmt.createIndex g _ => g
  | Stmt.pragma _ _ => false

def isPragmaStmt : Stmt → Bool
  | Stmt.pragma _ _ => true
  | _ => false

/-- The object a statement creates is present in the store. -/
def stmtEstablished (st : Stmt) (s : Store) : Bool :=
  match st with
  | Stmt.createTable _ td => hasTable s td.name
  | Stmt.createIndex _ ix => hasIndex s ix.name
  | Stmt.pragma _ _ => true

/-- Table names created by a statement. -/
def createdTables : Stmt → List String
  | Stmt.createTable _ td => [td.name]
  | _ => []

/-- Table names a statement references: the targets of a created table's
foreign keys, or the table an index is built on. -/
def referencedTables : Stmt → List String
  | Stmt.createTable _ td => td.foreignKeys.map fun fk => fk.refTable
  | Stmt.createIndex _ ix => [ix.table]
  | Stmt.pragma _ _ => []

/-! ### Row-level semantics of the migrated schema

Rows are typed from the column declarations: a `NOT NULL` column is a
plain field, a nullable one an `Option` field.  Referential-integrity
behaviour of the insert and delete operations is SQLite's, driven by the
foreign keys declared in the embedded table definitions (`fkCascades`)
and by the engine's enforcement switch `fkOn`: with enforcement off
neither rejection nor cascade takes place. -/

structure CategoryRow where
  id : Int
  name : String
  color : Option String
  created_at : Option String
deriving DecidableEq

structure EntryRow where
  id : Int
  title : String
  category_id : Option Int
  created_at : Option String
deriving DecidableEq

structure TimeEntryRow where
  id : Int
  entry_id : Int
  duration : Int
  date : String
  note : Option String
  created_at : Option String
deriving DecidableEq

structure DB where
  categories : List CategoryRow
  entries : List EntryRow
  timeEntries : List TimeEntryRow
deriving DecidableEq

deriving instance DecidableEq for Except

/-- Whether the foreign key declared on column `col` of table `t` carries
`ON DELETE CASCADE`. -/
def fkCascades (t : TableDef) (col : String) : Bool :=
  match t.foreignKeys.find? fun fk => fk.column == col with
  | some fk => fk.onDelete == some OnDeleteAction.cascade
  | none => false

/-- `INSERT` into categories: the primary key must be unique; no other
column of the table carries a uniqueness constraint. -/
def insertCategory (db : DB) (r : CategoryRow) : Except String DB :=
  if db.categories.any fun c => c.id == r.id then
    Except.error "UNIQUE constraint failed: categories.id"
  else
    Except.ok { db with categories := db.categories ++ [r] }

/-- `INSERT` into entries: unique primary key; when enforcement is on, a
set `category_id` must reference an existing category. -/
def insertEntry (fkOn : Bool) (db : DB) (r : EntryRow) : Except String DB :=
  if db.entries.any fun e => e.id == r.id then
    Except.error "UNIQUE constraint failed: entries.id"
  else
    match r.category_id with
    | some cid =>
        if fkOn && !(db.categories.any fun c => c.id == cid) then
          Except.error "FOREIGN KEY constraint failed"
        else
          Except.ok { db with entries := db.entries ++ [r] }
    | none => Except.ok { db with entries := db.entries ++ [r] }

/-- `INSERT` into time_entries: unique primary key; when enforcement is
on, `entry_id` must reference an existing entry.  The declared columns
impose no further condition (in particular none on `duration`, which has
no `CHECK` constraint). -/
def insertTimeEntry (fkOn : Bool) (db : DB) (r : TimeEntryRow) : Except String DB :=
  if db.timeEntries.any fun t => t.id == r.id then
    Except.error "UNIQUE constraint failed: time_entries.id"
  else if fkOn && !(db.entries.any fun e => e.id == r.entry_id) then
    Except.error "FOREIGN KEY constraint failed"
  else
    Except.ok { db with timeEntries := db.timeEntries ++ [r] }

/-- `DELETE FROM entries WHERE id = eid`: with enforcement on, the
`ON DELETE CASCADE` declared on time_entries.entry_id deletes the
referencing time_entries rows; were there no cascade, a referenced delete
would be rejected; with enforcement off the entry is removed and the
referencing rows are left untouched. -/
def deleteEntry (fkOn : Bool) (db : DB) (eid : Int) : Except String DB :=
  if fkOn && fkCascades timeEntriesTable "entry_id" then
    Except.ok { db with
      entries := db.entries.filter fun e => !(e.id == eid)
      timeEntries := db.timeEntries.filter fun t => !(t.entry_id == eid) }
  else if fkOn && (db.timeEntries.any fun t => t.entry_id == eid) then
    Except.error "FOREIGN KEY constraint failed"
  else
    Except.ok { db with entries := db.entries.filter fun e => !(e.id == eid) }

/-- `DELETE FROM categories WHERE id = cid`: the foreign key on
entries.category_id carries no `ON DELETE` clause, so with enforcement on
a referenced delete is rejected; with enforcement off the category is
removed and referencing entries keep their (now dangling) category_id. -/
def deleteCategory (fkOn : Bool) (db : DB) (cid : Int) : Except String DB :=
  if fkOn && fkCascades entriesTable "category_id" then
    Except.ok { db with
      categories := db.categories.filter fun c => !(c.id == cid)
      entries := db.entries.filter fun e => !(e.category_id == some cid) }
  else if fkOn && (db.entries.any fun e => e.category_id == some cid) then
    Except.error "FOREIGN KEY constraint failed"
  else
    Except.ok { db with categories := db.categories.filter fun c => !(c.id == cid) }

/-! ### Claims -/

/-- C1: the migration's SQL batch defines exactly the three tables
categories, entries and time_entries, with the column names, types,
defaults, nullability and foreign keys listed in the external-interface
schema of the spec, plus exactly two indexes, one on time_entries(date)
and one on time_entries(entry_id). -/
theorem migration_defines_spec_schema :
    tablesOf migrationStmts = [specCategoriesTable, specEntriesTable, specTimeEntriesTable]
    ∧ indexTargetsOf migrationStmts =
        [("time_entries", "date"), ("time_entries", "entry_id")] := by
  constructor <;> rfl

/-- C4: `run` registers exactly one migration — version 1, kind Up, the
human-readable description "create initial tables", a single SQL statement
batch — against the fixed logical store identifier `timeloop.db` (with the
sqlite scheme prefix). -/
theorem run_registers_single_v1_migration :
    sqlPlugin.migrations.map (fun m => (m.version, m.kind, m.description, m.sql))
      = [(1, MigrationKind.up, "create initial tables", migrationStmts)]
    ∧ sqlPlugin.dbUrl = "sqlite:" ++ "timeloop.db" := by
  constructor <;> rfl

/-- C7: an error from the framework's run call is propagated to a panic
via `expect`, with a diagnostic message; the application never reaches the
running (interactive) state on an error — there is no recovery, retry or
degraded-mode outcome. -/
theorem run_failure_panics (e : String) :
    finishRun (Except.error e)
        = RunOutcome.panicked ("error while running tauri application: " ++ e)
    ∧ finishRun (Except.error e) ≠ RunOutcome.running := by
  exact ⟨rfl, by simp [finishRun]⟩

/-- C6: within the single migration batch, executed as one ordered pass,
every statement that references a table (by foreign key or as an index
target) appears strictly after the statement creating that table. -/
theorem migration_batch_ordered (j : Fin migrationStmts.length) (t : String)
    (ht : t ∈ referencedTables (migrationStmts.get j)) :
    ∃ i : Fin migrationStmts.length,
      (i : Nat) < (j : Nat) ∧ t ∈ createdTables (migrationStmts.get i) := by
  revert ht
  revert t
  revert j
  decide

/-- Witness for C6 at a concrete input: the last statement of the batch,
the index on time_entries(entry_id), references time_entries, which an
earlier statement creates. -/
theorem migration_batch_ordered_witness :
    "time_entries" ∈ referencedTables (migrationStmts.get ⟨4, by decide⟩)
    ∧ ∃ i : Fin migrationStmts.length,
        (i : Nat) < 4 ∧ "time_entries" ∈ createdTables (migrationStmts.get i) :=
  ⟨by decide, migration_batch_ordered ⟨4, by decide⟩ "time_entries" (by decide)⟩

/-- A sample migrated-store instance, following the example of the spec
(a category "Work", entries, and time entries referencing them). -/
def sampleDB : DB :=
  { categories :=
      [ { id := 1, name := "Work", color := none, created_at := none } ]
  , entries :=
      [ { id := 1, title := "Report", category_id := some 1, created_at := none }
      , { id := 2, title := "Other", category_id := none, created_at := none } ]
  , timeEntries :=
      [ { id := 1, entry_id := 1, duration := 3600, date := "2024-01-01", note := none, created_at := none }
      , { id := 2, entry_id := 2, duration := 60, date := "2024-01-02", note := none, created_at := none } ]
  }

/-- An empty migrated-store instance. -/
def emptyDB : DB :=
  { categories := [], entries := [], timeEntries := [] }

/-- C3: with referential integrity enforced, deleting an entries row
deletes exactly the time_entries rows whose entry_id references it — so
afterwards no time_entries row references the deleted entry — and this
cascade comes from the `ON DELETE CASCADE` clause declared on
time_entries.entry_id. -/
theorem delete_entry_cascades (db : DB) (eid : Int) (db' : DB)
    (h : deleteEntry true db eid = Except.ok db') :
    fkCascades timeEntriesTable "entry_id" = true
    ∧ db'.timeEntries = db.timeEntries.filter (fun t => !(t.entry_id == eid))
    ∧ db'.entries = db.entries.filter (fun e => !(e.id == eid))
    ∧ ∀ t ∈ db'.timeEntries, t.entry_id ≠ eid := by
  have hc : fkCascades timeEntriesTable "entry_id" = true := by decide
  refine ⟨hc, ?_⟩
  simp only [deleteEntry, hc, Bool.and_true, if_true] at h
  injection h with h
  subst h
  refine ⟨rfl, rfl, ?_⟩
  intro t ht
  have := (List.mem_filter.mp ht).2
  simpa using this

/-- Witness for C3: deleting entry 1 of the sample store removes its
time entry and keeps the one referencing entry 2. -/
theorem delete_entry_cascades_witness :
    ({ categories := sampleDB.categories
     , entries := [{ id := 2, title := "Other", category_id := none, created_at := none }]
     , timeEntries := [{ id := 2, entry_id := 2, duration := 60, date := "2024-01-02", note := none, created_at := none }] } : DB).timeEntries
      = sampleDB.timeEntries.filter (fun t => !(t.entry_id == 1)) :=
  (delete_entry_cascades sampleDB 1
    { categories := sampleDB.categories
    , entries := [{ id := 2, title := "Other", category_id := none, created_at := none }]
    , timeEntries := [{ id := 2, entry_id := 2, duration := 60, date := "2024-01-02", note := none, created_at := none }] }
    (by decide)).2.1

/-- C5: the foreign key on entries.category_id carries no `ON DELETE`
clause, so deleting a categories row referenced by some entries row never
cascades to that entry: with enforcement on the delete is rejected, and
with enforcement off it removes only the category, leaving the entry's
category_id dangling. -/
theorem delete_category_no_cascade (fkOn : Bool) (db : DB) (cid : Int) (e : EntryRow)
    (he : e ∈ db.entries) (hc : e.category_id = some cid) :
    (entriesTable.foreignKeys.map fun fk => (fk.column, fk.refTable, fk.onDelete))
      = [("category_id", "categories", (none : Option OnDeleteAction))]
    ∧ (fkOn = true → deleteCategory fkOn db cid = Except.error "FOREIGN KEY constraint failed")
    ∧ (fkOn = false → deleteCategory fkOn db cid
        = Except.ok { db with categories := db.categories.filter fun c => !(c.id == cid) }) := by
  have hnc : fkCascades entriesTable "category_id" = false := by decide
  refine ⟨by decide, ?_, ?_⟩
  · intro hOn
    subst hOn
    have hany : (db.entries.any fun x => x.category_id == some cid) = true :=
      List.any_eq_true.mpr ⟨e, he, by simp [hc]⟩
    simp [deleteCategory, hnc, hany]
  · intro hOff
    subst hOff
    simp [deleteCategory]

/-- Witness for C5: with enforcement off, deleting the referenced
category 1 of the sample store succeeds and leaves the entries table
unchanged (entry 1 keeps its dangling category_id). -/
theorem delete_category_no_cascade_witness :
    deleteCategory false sampleDB 1
      = Except.ok { sampleDB with categories := sampleDB.categories.filter fun c => !(c.id == 1) } :=
  (delete_category_no_cascade false sampleDB 1
    { id := 1, title := "Report", category_id := some 1, created_at := none }
    (by decide) rfl).2.2 rfl

/-- C9: time_entries.duration is declared `INTEGER NOT NULL` with no
`CHECK` constraint, so a time_entries insert whose row carries any
integer duration — zero and negative values included — satisfies all
schema constraints (given a unique id and, under enforcement, a valid
entry_id) and is accepted by the migrated store. -/
theorem duration_unconstrained (fkOn : Bool) (db : DB) (r : TimeEntryRow)
    (hid : ∀ t ∈ db.timeEntries, t.id ≠ r.id)
    (hfk : fkOn = true → (db.entries.any fun e => e.id == r.entry_id) = true) :
    (timeEntriesTable.columns.find? fun c => c.name == "duration")
      = some { name := "duration", type := ColumnType.integer, notNull := true }
    ∧ insertTimeEntry fkOn db r = Except.ok { db with timeEntries := db.timeEntries ++ [r] } := by
  refine ⟨by decide, ?_⟩
  have hany : (db.timeEntries.any fun t => t.id == r.id) = false := by
    rw [Bool.eq_false_iff]
    intro hcon
    obtain ⟨t, ht, hbeq⟩ := List.any_eq_true.mp hcon
    exact hid t ht (by simpa using hbeq)
  cases fkOn with
  | true => simp [insertTimeEntry, hany, hfk rfl]
  | false => simp [insertTimeEntry, hany]

/-- Witness for C9: inserts with duration -3600 and with duration 0 into
the sample store are both accepted. -/
theorem duration_unconstrained_witness :
    insertTimeEntry true sampleDB
      { id := 3, entry_id := 1, duration := -3600, date := "2024-01-03", note := none, created_at := none }
      = Except.ok { sampleDB with timeEntries := sampleDB.timeEntries
          ++ [{ id := 3, entry_id := 1, duration := -3600, date := "2024-01-03", note := none, created_at := none }] }
    ∧ insertTimeEntry true sampleDB
      { id := 4, entry_id := 1, duration := 0, date := "2024-01-04", note := none, created_at := none }
      = Except.ok { sampleDB with timeEntries := sampleDB.timeEntries
          ++ [{ id := 4, entry_id := 1, duration := 0, date := "2024-01-04", note := none, created_at := none }] } :=
  ⟨(duration_unconstrained true sampleDB _ (by decide) (fun _ => by decide)).2,
   (duration_unconstrained true sampleDB _ (by decide) (fun _ => by decide)).2⟩

/-- C10: neither categories.name nor entries.title carries a UNIQUE
constraint (only the id columns are primary keys), so two distinct
categories rows with the same name, and two distinct entries rows with
the same title, can coexist in a migrated store. -/
theorem name_title_not_unique :
    (categoriesTable.columns.map fun c => (c.name, c.unique, c.primaryKey))
      = [("id", false, true), ("name", false, false), ("color", false, false), ("created_at", false, false)]
    ∧ (entriesTable.columns.map fun c => (c.name, c.unique, c.primaryKey))
      = [("id", false, true), ("title", false, false), ("category_id", false, false), ("created_at", false, false)]
    ∧ (∀ (db : DB) (r1 r2 : CategoryRow), r1.name = r2.name → r1.id ≠ r2.id →
        (∀ c ∈ db.categories, c.id ≠ r1.id ∧ c.id ≠ r2.id) →
        Except.bind (insertCategory db r1) (fun db1 => insertCategory db1 r2)
          = Except.ok { db with categories := db.categories ++ [r1, r2] }
        ∧ r1 ≠ r2)
    ∧ (∀ (fkOn : Bool) (db : DB) (r1 r2 : EntryRow), r1.title = r2.title → r1.id ≠ r2.id →
        r1.category_id = none → r2.category_id = none →
        (∀ e ∈ db.entries, e.id ≠ r1.id ∧ e.id ≠ r2.id) →
        Except.bind (insertEntry fkOn db r1) (fun db1 => insertEntry fkOn db1 r2)
          = Except.ok { db with entries := db.entries ++ [r1, r2] }
        ∧ r1 ≠ r2) := by
  refine ⟨by decide, by decide, ?_, ?_⟩
  · intro db r1 r2 _ hne hfresh
    have h1 : (db.categories.any fun c => c.id == r1.id) = false := by
      rw [Bool.eq_false_iff]
      intro hcon
      obtain ⟨c, hcmem, hbeq⟩ := List.any_eq_true.mp hcon
      exact (hfresh c hcmem).1 (by simpa using hbeq)
    have h2 : ((db.categories ++ [r1]).any fun c => c.id == r2.id) = false := by
      rw [Bool.eq_false_iff]
      intro hcon
      obtain ⟨c, hcmem, hbeq⟩ := List.any_eq_true.mp hcon
      rcases List.mem_append.mp hcmem with hin | hin
      · exact (hfresh c hin).2 (by simpa using hbeq)
      · rcases List.mem_singleton.mp hin with rfl
        exact hne (by simpa using hbeq)
    constructor
    · simp [insertCategory, h1, Except.bind, h2]
    · intro hcon
      exact hne (by rw [hcon])
  · intro fkOn db r1 r2 _ hne hc1 hc2 hfresh
    have h1 : (db.entries.any fun e => e.id == r1.id) = false := by
      rw [Bool.eq_false_iff]
      intro hcon
      obtain ⟨e, hemem, hbeq⟩ := List.any_eq_true.mp hcon
      exact (hfresh e hemem).1 (by simpa using hbeq)
    have h2 : ((db.entries ++ [r1]).any fun e => e.id == r2.id) = false := by
      rw [Bool.eq_false_iff]
      intro hcon
      obtain ⟨e, hemem, hbeq⟩ := List.any_eq_true.mp hcon
      rcases List.mem_append.mp hemem with hin | hin
      · exact (hfresh e hin).2 (by simpa using hbeq)
      · rcases List.mem_singleton.mp hin with rfl
        exact hne (by simpa using hbeq)
    constructor
    · simp [insertEntry, h1, Except.bind, h2, hc1, hc2]
    · intro hcon
      exact hne (by rw [hcon])

/-- Witness for C10: two categories both named "Work" (ids 1 and 2), and
two entries both titled "Report" (ids 1 and 2), coexist after insertion
into the empty store. -/
theorem name_title_not_unique_witness :
    (Except.bind (insertCategory emptyDB { id := 1, name := "Work", color := none, created_at := none })
        (fun db1 => insertCategory db1 { id := 2, name := "Work", color := none, created_at := none })
      = Except.ok { emptyDB with categories :=
          emptyDB.categories ++ [{ id := 1, name := "Work", color := none, created_at := none }
            , { id := 2, name := "Work", color := none, created_at := none }] }
      ∧ ({ id := 1, name := "Work", color := none, created_at := none } : CategoryRow)
          ≠ { id := 2, name := "Work", color := none, created_at := none })
    ∧ (Except.bind (insertEntry true emptyDB { id := 1, title := "Report", category_id := none, created_at := none })
        (fun db1 => insertEntry true db1 { id := 2, title := "Report", category_id := none, created_at := none })
      = Except.ok { emptyDB with entries :=
          emptyDB.entries ++ [{ id := 1, title := "Report", category_id := none, created_at := none }
            , { id := 2, title := "Report", category_id := none, created_at := none }] }
      ∧ ({ id := 1, title := "Report", category_id := none, created_at := none } : EntryRow)
          ≠ { id := 2, title := "Report", category_id := none, created_at := none }) :=
  ⟨name_title_not_unique.2.2.1 emptyDB _ _ rfl (by decide) (by intro c hc; cases hc),
   name_title_not_unique.2.2.2 true emptyDB _ _ rfl (by decide) rfl rfl (by intro e he; cases he)⟩

/-! ### Idempotence and frame lemmas for batch application -/

theorem applyStmt_hasTable_mono {s s' : Store} {st : Stmt} (h : applyStmt s st = some s')
    (n : String) (hn : hasTable s n = true) : hasTable s' n = true := by
  cases st with
  | createTable g td =>
    simp only [applyStmt] at h
    split at h
    · split at h
      · injection h with h
        subst h
        exact hn
      · exact absurd h (by simp)
    · injection h with h
      subst h
      simp only [hasTable, List.any_append] at hn ⊢
      simp [hn]
  | createIndex g ix =>
    simp only [applyStmt] at h
    split at h
    · split at h
      · injection h with h
        subst h
        exact hn
      · exact absurd h (by simp)
    · split at h
      · injection h with h
        subst h
        exact hn
      · exact absurd h (by simp)
  | pragma nm v =>
    simp only [applyStmt] at h
    split at h <;> (injection h with h; subst h; exact hn)

theorem applyStmt_hasIndex_mono {s s' : Store} {st : Stmt} (h : applyStmt s st = some s')
    (n : String) (hn : hasIndex s n = true) : hasIndex s' n = true := by
  cases st with
  | createTable g td =>
    simp only [applyStmt] at h
    split at h
    · split at h
      · injection h with h
        subst h
        exact hn
      · exact absurd h (by simp)
    · injection h with h
      subst h
      exact hn
  | createIndex g ix =>
    simp only [applyStmt] at h
    split at h
    · split at h
      · injection h with h
        subst h
        exact hn
      · exact absurd h (by simp)
    · split at h
      · injection h with h
        subst h
        simp only [hasIndex, List.any_append] at hn ⊢
        simp [hn]
      · exact absurd h (by simp)
  | pragma nm v =>
    simp only [applyStmt] at h
    split at h <;> (injection h with h; subst h; exact hn)

theorem applyStmt_establishes {s s' : Store} {st : Stmt} (h : applyStmt s st = some s') :
    stmtEstablished st s' = true := by
  cases st with
  | createTable g td =>
    simp only [applyStmt] at h
    split at h
    · split at h
      · injection h with h
        subst h
        assumption
      · exact absurd h (by simp)
    · injection h with h
      subst h
      simp [stmtEstablished, hasTable, List.any_append]
  | createIndex g ix =>
    simp only [applyStmt] at h
    split at h
    · split at h
      · injection h with h
        subst h
        assumption
      · exact absurd h (by simp)
    · split at h
      · injection h with h
        subst h
        simp [stmtEstablished, hasIndex, List.any_append]
      · exact absurd h (by simp)
  | pragma nm v => rfl

theorem applyStmt_mono_established {s s' : Store} {st st0 : Stmt}
    (h : applyStmt s st = some s') (he : stmtEstablished st0 s = true) :
    stmtEstablished st0 s' = true := by
  cases st0 with
  | createTable g td => exact applyStmt_hasTable_mono h td.name he
  | createIndex g ix => exact applyStmt_hasIndex_mono h ix.name he
  | pragma nm v => rfl

theorem applyBatch_mono_established {l : List Stmt} {s t : Store} {st0 : Stmt}
    (h : applyBatch s l = some t) (he : stmtEstablished st0 s = true) :
    stmtEstablished st0 t = true := by
  induction l generalizing s with
  | nil =>
    simp only [applyBatch] at h
    injection h with h
    subst h
    exact he
  | cons hd tl ih =>
    simp only [applyBatch] at h
    cases heq : applyStmt s hd with
    | none => rw [heq] at h; exact absurd h (by simp)
    | some s1 =>
      rw [heq] at h
      exact ih h (applyStmt_mono_established heq he)

theorem applyBatch_establishes_all {l : List Stmt} {s t : Store}
    (h : applyBatch s l = some t) : ∀ st ∈ l, stmtEstablished st t = true := by
  induction l generalizing s with
  | nil =>
    intro st hst
    exact absurd hst (by simp)
  | cons hd tl ih =>
    intro st hst
    simp only [applyBatch] at h
    cases heq : applyStmt s hd with
    | none => rw [heq] at h; exact absurd h (by simp)
    | some s1 =>
      rw [heq] at h
      rcases List.mem_cons.mp hst with rfl | hmem
      · exact applyBatch_mono_established h (applyStmt_establishes heq)
      · exact ih h st hmem

theorem applyStmt_skip {t : Store} {st : Stmt} (hg : isGuardedDDL st = true)
    (he : stmtEstablished st t = true) : applyStmt t st = some t := by
  cases st with
  | createTable g td =>
    simp only [isGuardedDDL] at hg
    simp only [stmtEstablished] at he
    simp [applyStmt, he, hg]
  | createIndex g ix =>
    simp only [isGuardedDDL] at hg
    simp only [stmtEstablished] at he
    simp [applyStmt, he, hg]
  | pragma nm v => exact absurd hg (by simp [isGuardedDDL])

theorem applyBatch_skip_all {l : List Stmt} {t : Store}
    (hg : ∀ st ∈ l, isGuardedDDL st = true)
    (he : ∀ st ∈ l, stmtEstablished st t = true) : applyBatch t l = some t := by
  induction l with
  | nil => rfl
  | cons hd tl ih =>
    simp only [applyBatch]
    rw [applyStmt_skip (hg hd (List.mem_cons_self hd tl)) (he hd (List.mem_cons_self hd tl))]
    exact ih (fun st hst => hg st (List.mem_cons_of_mem hd hst))
      (fun st hst => he st (List.mem_cons_of_mem hd hst))

theorem applyStmt_fkEnforcement {s s' : Store} {st : Stmt}
    (h : applyStmt s st = some s') (hp : isPragmaStmt st = false) :
    s'.fkEnforcement = s.fkEnforcement := by
  cases st with
  | createTable g td =>
    simp only [applyStmt] at h
    split at h
    · split at h
      · injection h with h
        subst h
        rfl
      · exact absurd h (by simp)
    · injection h with h
      subst h
      rfl
  | createIndex g ix =>
    simp only [applyStmt] at h
    split at h
    · split at h
      · injection h with h
        subst h
        rfl
      · exact absurd h (by simp)
    · split at h
      · injection h with h
        subst h
        rfl
      · exact absurd h (by simp)
  | pragma nm v => exact absurd hp (by simp [isPragmaStmt])

theorem applyBatch_fkEnforcement {l : List Stmt} {s t : Store}
    (h : applyBatch s l = some t) (hp : ∀ st ∈ l, isPragmaStmt st = false) :
    t.fkEnforcement = s.fkEnforcement := by
  induction l generalizing s with
  | nil =>
    simp only [applyBatch] at h
    injection h with h
    subst h
    rfl
  | cons hd tl ih =>
    simp only [applyBatch] at h
    cases heq : applyStmt s hd with
    | none => rw [heq] at h; exact absurd h (by simp)
    | some s1 =>
      rw [heq] at h
      rw [ih h (fun st hst => hp st (List.mem_cons_of_mem hd hst))]
      exact applyStmt_fkEnforcement heq (hp hd (List.mem_cons_self hd tl))

/-- C2: every statement of the version-1 batch is guarded by
`IF NOT EXISTS`, so on every store on which one application of the batch
succeeds, a second application leaves the resulting schema (tables,
indexes, and the rest of the store state) exactly as the first left it. -/
theorem migration_idempotent (s t : Store) (h : applyBatch s migrationStmts = some t) :
    applyBatch t migrationStmts = some t :=
  applyBatch_skip_all (by decide) (applyBatch_establishes_all h)

/-- Witness for C2: on a fresh store the batch yields `migratedStore`,
and re-applying it there changes nothing. -/
theorem migration_idempotent_witness :
    applyBatch emptyStore migrationStmts = some migratedStore
    ∧ applyBatch migratedStore migrationStmts = some migratedStore :=
  ⟨by decide, migration_idempotent emptyStore migratedStore (by decide)⟩

/-- C8: the migration batch contains no PRAGMA (nor any other statement
touching foreign-key enforcement), applying it leaves the store's
foreign-key-enforcement switch unchanged, and with enforcement off the
declared `ON DELETE CASCADE` does not fire — the entry is removed and the
referencing time_entries rows stay (the schema's referential-integrity
behaviour needs enforcement to be switched on externally). -/
theorem migration_no_fk_pragma :
    (∀ st ∈ migrationStmts, isPragmaStmt st = false)
    ∧ (∀ (s t : Store), applyBatch s migrationStmts = some t →
        t.fkEnforcement = s.fkEnforcement)
    ∧ (∀ (db : DB) (eid : Int), deleteEntry false db eid
        = Except.ok { db with entries := db.entries.filter fun e => !(e.id == eid) }) := by
  refine ⟨by decide, ?_, ?_⟩
  · intro s t h
    exact applyBatch_fkEnforcement h (by decide)
  · intro db eid
    simp [deleteEntry]

/-- Witness for C8: the fresh-store run keeps enforcement off, and with
enforcement off deleting entry 1 of the sample store leaves both its
time entries in place. -/
theorem migration_no_fk_pragma_witness :
    isPragmaStmt (Stmt.createTable true categoriesTable) = false
    ∧ migratedStore.fkEnforcement = emptyStore.fkEnforcement
    ∧ deleteEntry false sampleDB 1
        = Except.ok { sampleDB with entries := sampleDB.entries.filter fun e => !(e.id == 1) } :=
  ⟨migration_no_fk_pragma.1 _ (by decide),
   migration_no_fk_pragma.2.1 emptyStore migratedStore (by decide),
   migration_no_fk_pragma.2.2 sampleDB 1⟩

/-- Witness for C7 at a concrete error: a failure to open or migrate the
store ends in a panic carrying the diagnostic message. -/
theorem run_failure_panics_witness :
    finishRun (Except.error "failed to open store")
        = RunOutcome.panicked ("error while running tauri application: " ++ "failed to open store")
    ∧ finishRun (Except.error "failed to open store") ≠ RunOutcome.running :=
  run_failure_panics "failed to open store"
